import Mathlib

/-! # Rotating wireframe square: a verification development for `src/main.cpp`

The program keeps one global `glm::mat4 rotationMatrix`, one fixed vertex
array `squareVertices`, and a render loop.  The embedding below follows the
source function by function: `processInput`, `render`,
`framebufferSizeChanged`, `main` and `DebugMessageCallback`.

* Global and loop-carried variables (`rotationMatrix`, `shaderProgram`,
  `lastFrameStartTime`, the window) are fields of an explicit `State`.
* Calls into GLFW, GLEW and OpenGL are appended to a call log, text written to
  `std::cout` / `std::cerr` to an output log.  The answers of the libraries
  (return values, compile status, delivered events, clock readings) are inputs
  of the model (`Env`, `Frame`).
* glm, GLFW and OpenGL are third-party libraries and not part of the
  repository.  The glm functions the program calls (`radians`, `rotate`, and
  what they use) are transcribed from the library; enum values are those of
  the library headers.
* The scalar type `S` stands for `float`.  The elementary functions that glm
  takes from the C library (`cos`, `sin`, `inversesqrt`) and the literal of
  `glm::radians` are collected in `GlmScalar S`, so every definition is
  executable for a concrete `S`.  The theorems "over exact real arithmetic"
  take `S = ℝ` with `Real.cos`, `Real.sin`, `1 / √x` and `π / 180`
  (`ExactReal`).
-/

namespace GlfwTemplate

/-! ## glm: vectors, matrices, `radians`, `rotate`

Transcribed from the glm library (`glm/detail/type_mat4x4.inl`,
`glm/detail/func_geometric.inl`, `glm/detail/func_trigonometric.inl`,
`glm/ext/matrix_transform.inl`). -/

/-- The elementary functions glm relies on, for the scalar type `S`:
`cos`, `sin`, `inversesqrt`, and the degrees-to-radians literal
`0.01745329251994329576923690768489` of `glm::radians`. -/
structure GlmScalar (S : Type) where
  cos : S → S
  sin : S → S
  inversesqrt : S → S
  degToRad : S

/-- The type `glm::vec3`. -/
structure Vec3 (S : Type) where
  x : S
  y : S
  z : S
deriving DecidableEq, Repr

/-- The type `glm::vec4`. -/
structure Vec4 (S : Type) where
  x : S
  y : S
  z : S
  w : S
deriving DecidableEq, Repr

/-- The type `glm::mat4`, column-major: `c0 .. c3` are `m[0] .. m[3]`, and the
field `y` of `c0` is `m[0][1]`. -/
structure Mat4 (S : Type) where
  c0 : Vec4 S
  c1 : Vec4 S
  c2 : Vec4 S
  c3 : Vec4 S
deriving DecidableEq, Repr

section Glm

variable {S : Type} [Zero S] [One S] [Add S] [Sub S] [Mul S] [Neg S]

/-- Vector times scalar, `v * k`, for `glm::vec3`. -/
def Vec3.scale (v : Vec3 S) (k : S) : Vec3 S :=
  ⟨v.x * k, v.y * k, v.z * k⟩

/-- Scalar times vector, `k * v`, for `glm::vec3`. -/
def Vec3.smul (k : S) (v : Vec3 S) : Vec3 S :=
  ⟨k * v.x, k * v.y, k * v.z⟩

/-- The function `glm::dot` on `vec3`. -/
def Vec3.dot (a b : Vec3 S) : S :=
  a.x * b.x + a.y * b.y + a.z * b.z

/-- Vector times scalar, `v * k`, for `glm::vec4`. -/
def Vec4.scale (v : Vec4 S) (k : S) : Vec4 S :=
  ⟨v.x * k, v.y * k, v.z * k, v.w * k⟩

/-- Vector sum for `glm::vec4`. -/
def Vec4.add (a b : Vec4 S) : Vec4 S :=
  ⟨a.x + b.x, a.y + b.y, a.z + b.z, a.w + b.w⟩

/-- The matrix `glm::mat4(1.0f)`. -/
def Mat4.identity : Mat4 S :=
  ⟨⟨1, 0, 0, 0⟩, ⟨0, 1, 0, 0⟩, ⟨0, 0, 1, 0⟩, ⟨0, 0, 0, 1⟩⟩

/-- The function `glm::transpose` on `mat4`: `Result[i][j] = m[j][i]`. -/
def Mat4.transpose (m : Mat4 S) : Mat4 S :=
  ⟨⟨m.c0.x, m.c1.x, m.c2.x, m.c3.x⟩,
   ⟨m.c0.y, m.c1.y, m.c2.y, m.c3.y⟩,
   ⟨m.c0.z, m.c1.z, m.c2.z, m.c3.z⟩,
   ⟨m.c0.w, m.c1.w, m.c2.w, m.c3.w⟩⟩

/-- A column of the product in `operator*` on `mat4`:
`a[0] * b[0] + a[1] * b[1] + a[2] * b[2] + a[3] * b[3]` for a column `b`. -/
def Mat4.mulVec (a : Mat4 S) (b : Vec4 S) : Vec4 S :=
  (((a.c0.scale b.x).add (a.c1.scale b.y)).add (a.c2.scale b.z)).add (a.c3.scale b.w)

/-- The product `a * b` of `glm::mat4`. -/
def Mat4.mul (a b : Mat4 S) : Mat4 S :=
  ⟨a.mulVec b.c0, a.mulVec b.c1, a.mulVec b.c2, a.mulVec b.c3⟩

/-- The function `glm::radians`: `degrees * 0.01745329251994329576923690768489`. -/
def radians (T : GlmScalar S) (degrees : S) : S :=
  degrees * T.degToRad

/-- The function `glm::normalize` on `vec3`: `v * inversesqrt(dot(v, v))`. -/
def normalize (T : GlmScalar S) (v : Vec3 S) : Vec3 S :=
  v.scale (T.inversesqrt (v.dot v))

/-- The function `glm::rotate(m, angle, v)` of `glm/ext/matrix_transform.inl`. -/
def rotate (T : GlmScalar S) (m : Mat4 S) (angle : S) (v : Vec3 S) : Mat4 S :=
  let a := angle
  let c := T.cos a
  let s := T.sin a
  let axis := normalize T v
  let temp := Vec3.smul (1 - c) axis
  let r00 := c + temp.x * axis.x
  let r01 := temp.x * axis.y + s * axis.z
  let r02 := temp.x * axis.z - s * axis.y
  let r10 := temp.y * axis.x - s * axis.z
  let r11 := c + temp.y * axis.y
  let r12 := temp.y * axis.z + s * axis.x
  let r20 := temp.z * axis.x + s * axis.y
  let r21 := temp.z * axis.y - s * axis.x
  let r22 := c + temp.z * axis.z
  ⟨((m.c0.scale r00).add (m.c1.scale r01)).add (m.c2.scale r02),
   ((m.c0.scale r10).add (m.c1.scale r11)).add (m.c2.scale r12),
   ((m.c0.scale r20).add (m.c1.scale r21)).add (m.c2.scale r22),
   m.c3⟩

end Glm

/-! ## GLFW: keys and the window

The values are those of `GLFW/glfw3.h`. -/

/-- The constant `GLFW_RELEASE`. -/
def GLFW_RELEASE : Int := 0

/-- The constant `GLFW_PRESS`. -/
def GLFW_PRESS : Int := 1

/-- The constant `GLFW_KEY_RIGHT`. -/
def GLFW_KEY_RIGHT : Int := 262

/-- The constant `GLFW_KEY_LEFT`. -/
def GLFW_KEY_LEFT : Int := 263

/-- The part of a `GLFWwindow` the program reads: the last reported state of
every key and the close flag. -/
structure Window where
  keys : Int → Int
  shouldClose : Bool

/-- The function `glfwGetKey(window, key)`. -/
def glfwGetKey (window : Window) (key : Int) : Int :=
  window.keys key

/-- The function `glfwWindowShouldClose(window)`. -/
def glfwWindowShouldClose (window : Window) : Bool :=
  window.shouldClose

/-! ## `processInput` -/

section ProcessInput

variable {S : Type} [Zero S] [One S] [Add S] [Sub S] [Mul S] [Neg S] [OfNat S 90]

/-- The function `processInput(window, deltaTime)`; the global
`rotationMatrix` is passed in and the updated value is returned. -/
def processInput (T : GlmScalar S) (window : Window) (deltaTime : S)
    (rotationMatrix : Mat4 S) : Mat4 S :=
  let rotationSpeedDegreesPerSecond : S := 90
  let rotationAnglePerFrame := rotationSpeedDegreesPerSecond * deltaTime
  let rotationMatrix :=
    if glfwGetKey window GLFW_KEY_LEFT = GLFW_PRESS then
      rotate T rotationMatrix (radians T rotationAnglePerFrame) ⟨0, 0, 1⟩
    else rotationMatrix
  let rotationMatrix :=
    if glfwGetKey window GLFW_KEY_RIGHT = GLFW_PRESS then
      rotate T rotationMatrix (radians T (-rotationAnglePerFrame)) ⟨0, 0, 1⟩
    else rotationMatrix
  rotationMatrix

end ProcessInput

/-! ## OpenGL and GLFW constants used by the program

The values are those of the OpenGL and GLFW headers. -/

/-- The constant `GL_FALSE`. -/
def GL_FALSE : Nat := 0

/-- The constant `GL_TRUE`. -/
def GL_TRUE : Nat := 1

/-- The constant `GL_LINES`. -/
def GL_LINES : Nat := 0x0001

/-- The constant `GL_FLOAT`. -/
def GL_FLOAT : Nat := 0x1406

/-- The constant `GL_COLOR_BUFFER_BIT`. -/
def GL_COLOR_BUFFER_BIT : Nat := 0x4000

/-- The constant `GL_ARRAY_BUFFER`. -/
def GL_ARRAY_BUFFER : Nat := 0x8892

/-- The constant `GL_STATIC_DRAW`. -/
def GL_STATIC_DRAW : Nat := 0x88E4

/-- The constant `GL_FRAGMENT_SHADER`. -/
def GL_FRAGMENT_SHADER : Nat := 0x8B30

/-- The constant `GL_VERTEX_SHADER`. -/
def GL_VERTEX_SHADER : Nat := 0x8B31

/-- The constant `GL_DEBUG_OUTPUT`. -/
def GL_DEBUG_OUTPUT : Nat := 0x92E0

/-- The constant `GL_DEBUG_OUTPUT_SYNCHRONOUS`. -/
def GL_DEBUG_OUTPUT_SYNCHRONOUS : Nat := 0x8242

/-- The constant `GL_DEBUG_SOURCE_API`. -/
def GL_DEBUG_SOURCE_API : Nat := 0x8246

/-- The constant `GL_DEBUG_SOURCE_WINDOW_SYSTEM`. -/
def GL_DEBUG_SOURCE_WINDOW_SYSTEM : Nat := 0x8247

/-- The constant `GL_DEBUG_SOURCE_SHADER_COMPILER`. -/
def GL_DEBUG_SOURCE_SHADER_COMPILER : Nat := 0x8248

/-- The constant `GL_DEBUG_SOURCE_THIRD_PARTY`. -/
def GL_DEBUG_SOURCE_THIRD_PARTY : Nat := 0x8249

/-- The constant `GL_DEBUG_SOURCE_APPLICATION`. -/
def GL_DEBUG_SOURCE_APPLICATION : Nat := 0x824A

/-- The constant `GL_DEBUG_SOURCE_OTHER`. -/
def GL_DEBUG_SOURCE_OTHER : Nat := 0x824B

/-- The constant `GL_DEBUG_TYPE_ERROR`. -/
def GL_DEBUG_TYPE_ERROR : Nat := 0x824C

/-- The constant `GL_DEBUG_TYPE_DEPRECATED_BEHAVIOR`. -/
def GL_DEBUG_TYPE_DEPRECATED_BEHAVIOR : Nat := 0x824D

/-- The constant `GL_DEBUG_TYPE_UNDEFINED_BEHAVIOR`. -/
def GL_DEBUG_TYPE_UNDEFINED_BEHAVIOR : Nat := 0x824E

/-- The constant `GL_DEBUG_TYPE_PORTABILITY`. -/
def GL_DEBUG_TYPE_PORTABILITY : Nat := 0x824F

/-- The constant `GL_DEBUG_TYPE_PERFORMANCE`. -/
def GL_DEBUG_TYPE_PERFORMANCE : Nat := 0x8250

/-- The constant `GL_DEBUG_TYPE_OTHER`. -/
def GL_DEBUG_TYPE_OTHER : Nat := 0x8251

/-- The constant `GL_DEBUG_TYPE_MARKER`. -/
def GL_DEBUG_TYPE_MARKER : Nat := 0x8268

/-- The constant `GL_DEBUG_TYPE_PUSH_GROUP`. -/
def GL_DEBUG_TYPE_PUSH_GROUP : Nat := 0x8269

/-- The constant `GL_DEBUG_TYPE_POP_GROUP`. -/
def GL_DEBUG_TYPE_POP_GROUP : Nat := 0x826A

/-- The constant `GL_DEBUG_SEVERITY_NOTIFICATION`. -/
def GL_DEBUG_SEVERITY_NOTIFICATION : Nat := 0x826B

/-- The constant `GL_DEBUG_SEVERITY_HIGH`. -/
def GL_DEBUG_SEVERITY_HIGH : Nat := 0x9146

/-- The constant `GL_DEBUG_SEVERITY_MEDIUM`. -/
def GL_DEBUG_SEVERITY_MEDIUM : Nat := 0x9147

/-- The constant `GL_DEBUG_SEVERITY_LOW`. -/
def GL_DEBUG_SEVERITY_LOW : Nat := 0x9148

/-- The constant `GLFW_CONTEXT_VERSION_MAJOR`. -/
def GLFW_CONTEXT_VERSION_MAJOR : Nat := 0x00022002

/-- The constant `GLFW_CONTEXT_VERSION_MINOR`. -/
def GLFW_CONTEXT_VERSION_MINOR : Nat := 0x00022003

/-- The constant `GLFW_OPENGL_FORWARD_COMPAT`. -/
def GLFW_OPENGL_FORWARD_COMPAT : Nat := 0x00022006

/-- The constant `GLFW_OPENGL_PROFILE`. -/
def GLFW_OPENGL_PROFILE : Nat := 0x00022008

/-- The constant `GLFW_OPENGL_CORE_PROFILE`. -/
def GLFW_OPENGL_CORE_PROFILE : Nat := 0x00032001

/-- The value of `sizeof(float)`. -/
def sizeofFloat : Nat := 4

/-! ## Program constants -/

/-- The string `vertexShaderSource`. -/
def vertexShaderSource : String :=
  "\n" ++
  "    #version 330 core\n" ++
  "    \n" ++
  "    layout (location = 0) in vec3 aPos;\n" ++
  "    uniform mat4 rotationMatrix;\n" ++
  "\n" ++
  "    void main()\n" ++
  "    \x7b\n" ++
  "        gl_Position = rotationMatrix * vec4(aPos.x, aPos.y, aPos.z, 1.0);\n" ++
  "    \x7d\n"

/-- The string `fragmentShaderSource`. -/
def fragmentShaderSource : String :=
  "\n" ++
  "    #version 330 core\n" ++
  "\n" ++
  "    out vec4 FragColor;\n" ++
  "\n" ++
  "    void main()\n" ++
  "    \x7b\n" ++
  "        FragColor = vec4(1.0f, 1.0f, 1.0f, 1.0f);\n" ++
  "    \x7d\n"

/-- The array `squareVertices` ("vertices duplicated for GL_LINES").  Every
literal is a dyadic rational, so the `float` values are the rationals written
here. -/
def squareVertices : List ℚ :=
  [-0.5, 0.5, 0.0,   -- Top-left
   0.5, 0.5, 0.0,    -- Top-right
   0.5, 0.5, 0.0,    -- Top-right
   0.5, -0.5, 0.0,   -- Bottom-right
   0.5, -0.5, 0.0,   -- Bottom-right
   -0.5, -0.5, 0.0,  -- Bottom-left
   -0.5, -0.5, 0.0,  -- Bottom-left
   -0.5, 0.5, 0.0]   -- Top-left

/-! ## The observable behaviour: library calls and stream output -/

/-- The two C++ output streams the program writes to. -/
inductive OStream where
  | cout
  | cerr
deriving DecidableEq, Repr

/-- One call into GLFW, GLEW or OpenGL, with its arguments.  Pure queries
(`glfwGetKey`, `glfwGetTime`, `glGetShaderiv`, ...) are not logged; their
answers are inputs of the model. -/
inductive Call (S : Type) where
  | glfwInit
  | glfwWindowHint (hint : Nat) (value : Nat)
  | glfwCreateWindow (width : Int) (height : Int) (title : String)
  | glfwMakeContextCurrent
  | glfwSetFramebufferSizeCallback
  | glfwSwapBuffers
  | glfwPollEvents
  | glfwTerminate
  | glewInit
  | glDebugMessageCallback
  | glEnable (cap : Nat)
  | glCreateShader (type : Nat)
  | glShaderSource (shader : Nat) (count : Nat) (source : String)
  | glCompileShader (shader : Nat)
  | glCreateProgram
  | glAttachShader (program : Nat) (shader : Nat)
  | glLinkProgram (program : Nat)
  | glDeleteShader (shader : Nat)
  | glGenVertexArrays (n : Nat)
  | glGenBuffers (n : Nat)
  | glBindVertexArray (array : Nat)
  | glBindBuffer (target : Nat) (buffer : Nat)
  | glBufferData (target : Nat) (size : Nat) (data : List ℚ) (usage : Nat)
  | glVertexAttribPointer (index : Nat) (size : Nat) (type : Nat) (normalized : Nat)
      (stride : Nat) (pointer : Nat)
  | glEnableVertexAttribArray (index : Nat)
  | glViewport (x : Int) (y : Int) (width : Int) (height : Int)
  | glClearColor (red : S) (green : S) (blue : S) (alpha : S)
  | glClear (mask : Nat)
  | glUseProgram (program : Nat)
  | glUniformMatrix4fv (location : Int) (count : Nat) (transpose : Nat) (value : Mat4 S)
  | glDrawArrays (mode : Nat) (first : Int) (count : Int)
  | glDeleteVertexArrays (n : Nat) (array : Nat)
  | glDeleteBuffers (n : Nat) (buffer : Nat)
  | glDeleteProgram (program : Nat)
deriving DecidableEq, Repr

/-- An event that `glfwPollEvents` processes for the window. -/
inductive Event where
  | framebufferSize (width : Int) (height : Int)
  | key (key : Int) (action : Int)
  | close
  | other
deriving DecidableEq, Repr

/-- The inputs of one iteration of the render loop: the reading of
`glfwGetTime()` and the events processed by `glfwPollEvents()`. -/
structure Frame (S : Type) where
  time : S
  events : List Event

/-- The answers of the platform and of the libraries during start-up. -/
structure Env where
  /-- Whether `__APPLE__` is defined. -/
  apple : Bool
  /-- Whether `glfwInit()` returned non-zero. -/
  glfwInitOk : Bool
  /-- The field `height` of the primary monitor's video mode. -/
  screenHeight : Int
  /-- Whether `glfwCreateWindow` returned a window rather than `NULL`. -/
  windowCreated : Bool
  /-- The key and close state of the created window. -/
  window : Window
  /-- Whether `glewInit()` returned `GLEW_OK`. -/
  glewInitOk : Bool
  /-- The name returned by `glCreateShader(GL_VERTEX_SHADER)`. -/
  vertexShader : Nat
  /-- The value of `GL_COMPILE_STATUS` for the vertex shader. -/
  vertexCompileStatus : Int
  /-- The info log of the vertex shader. -/
  vertexInfoLog : String
  /-- The name returned by `glCreateShader(GL_FRAGMENT_SHADER)`. -/
  fragmentShader : Nat
  /-- The value of `GL_COMPILE_STATUS` for the fragment shader. -/
  fragmentCompileStatus : Int
  /-- The info log of the fragment shader. -/
  fragmentInfoLog : String
  /-- The name returned by `glCreateProgram()`. -/
  program : Nat
  /-- The value of `GL_LINK_STATUS` for the program. -/
  linkStatus : Int
  /-- The info log of the program. -/
  programInfoLog : String
  /-- The name written by `glGenVertexArrays`. -/
  VAO : Nat
  /-- The name written by `glGenBuffers`. -/
  VBO : Nat
  /-- The answer of `glGetUniformLocation(shaderProgram, "rotationMatrix")`. -/
  uniformLocation : Int

/-- The program state together with everything it has done so far. -/
structure State (S : Type) where
  /-- The global `rotationMatrix`. -/
  rotationMatrix : Mat4 S
  /-- The global `shaderProgram`. -/
  shaderProgram : Nat
  /-- The local `lastFrameStartTime` of `main`. -/
  lastFrameStartTime : S
  /-- The window. -/
  window : Window
  /-- The answer of `glGetUniformLocation(shaderProgram, "rotationMatrix")`. -/
  uniformLocation : Int
  /-- The library calls made so far, oldest first. -/
  calls : List (Call S)
  /-- The text written so far, oldest first. -/
  out : List (OStream × String)
  /-- The values of the local `deltaTime`, one per loop iteration, oldest first. -/
  deltaTimes : List S

/-- Record a library call. -/
def State.call {S : Type} (st : State S) (c : Call S) : State S :=
  { st with calls := st.calls ++ [c] }

/-- Record text written to a stream. -/
def State.print {S : Type} (st : State S) (o : OStream) (text : String) : State S :=
  { st with out := st.out ++ [(o, text)] }

/-! ## `render`, `framebufferSizeChanged`, event dispatch -/

section Program

variable {S : Type} [Zero S] [One S] [Add S] [Sub S] [Mul S] [Neg S] [OfNat S 90]

/-- The function `render(window)`. -/
def render (st : State S) : State S :=
  let st := st.call (.glClearColor 0 0 0 1)
  let st := st.call (.glClear GL_COLOR_BUFFER_BIT)
  let st := st.call (.glUseProgram st.shaderProgram)
  let location := st.uniformLocation
  let st := st.call (.glUniformMatrix4fv location 1 GL_FALSE st.rotationMatrix)
  let st := st.call (.glDrawArrays GL_LINES 0 (Int.ofNat (squareVertices.length / 3)))
  st.call .glfwSwapBuffers

/-- The callback `framebufferSizeChanged(window, width, height)`. -/
def framebufferSizeChanged (st : State S) (width height : Int) : State S :=
  let st := st.call (.glViewport 0 0 width height)
  render st

/-- What GLFW does with one event: the framebuffer-size callback registered
with `glfwSetFramebufferSizeCallback` is invoked, key events update the state
read by `glfwGetKey`, a close request sets the close flag. -/
def dispatch (st : State S) : Event → State S
  | .framebufferSize width height => framebufferSizeChanged st width height
  | .key key action =>
      { st with window :=
          { st.window with keys := fun k => if k = key then action else st.window.keys k } }
  | .close => { st with window := { st.window with shouldClose := true } }
  | .other => st

/-- The function `glfwPollEvents()`, processing the pending `events` in order. -/
def glfwPollEvents (st : State S) (events : List Event) : State S :=
  events.foldl dispatch (st.call .glfwPollEvents)

/-! ## `main` -/

/-- The body of the `while` loop of `main` (one iteration). -/
def loopBody (T : GlmScalar S) (st : State S) (frame : Frame S) : State S :=
  let currentFrameStartTime := frame.time
  let deltaTime := currentFrameStartTime - st.lastFrameStartTime
  let st := { st with lastFrameStartTime := currentFrameStartTime,
                      deltaTimes := st.deltaTimes ++ [deltaTime] }
  let st := { st with rotationMatrix := processInput T st.window deltaTime st.rotationMatrix }
  let st := render st
  glfwPollEvents st frame.events

/-- The loop `while (!glfwWindowShouldClose(window)) ...` of `main`, run on
the given frames; it stops when the window should close or when the frames
are used up. -/
def mainLoop (T : GlmScalar S) : State S → List (Frame S) → State S
  | st, [] => st
  | st, frame :: frames =>
      if glfwWindowShouldClose st.window then st
      else mainLoop T (loopBody T st frame) frames

/-- The state when `main` starts: `rotationMatrix = glm::mat4(1.0f)`,
`shaderProgram = 0`, nothing logged. -/
def initialState (env : Env) : State S :=
  { rotationMatrix := Mat4.identity, shaderProgram := 0, lastFrameStartTime := 0,
    window := env.window, uniformLocation := env.uniformLocation,
    calls := [], out := [], deltaTimes := [] }

/-- Lines 106 to 146 of `main`: compile the two shaders, link the program,
report failures, delete the shaders. -/
def compileShaders (env : Env) (st : State S) : State S :=
  let vertexShader := env.vertexShader
  let st := st.call (.glCreateShader GL_VERTEX_SHADER)
  let st := st.call (.glShaderSource vertexShader 1 vertexShaderSource)
  let st := st.call (.glCompileShader vertexShader)
  let success := env.vertexCompileStatus
  let st :=
    if success = 0 then
      st.print .cout ("Vertex Shader Compilation Failed:" ++ env.vertexInfoLog ++ "\n")
    else st
  let fragmentShader := env.fragmentShader
  let st := st.call (.glCreateShader GL_FRAGMENT_SHADER)
  let st := st.call (.glShaderSource fragmentShader 1 fragmentShaderSource)
  let st := st.call (.glCompileShader fragmentShader)
  let success := env.fragmentCompileStatus
  let st :=
    if success = 0 then
      st.print .cout ("Fragment Shader Compilation Failed:" ++ env.fragmentInfoLog ++ "\n")
    else st
  let st := { st with shaderProgram := env.program }
  let st := st.call .glCreateProgram
  let st := st.call (.glAttachShader st.shaderProgram vertexShader)
  let st := st.call (.glAttachShader st.shaderProgram fragmentShader)
  let st := st.call (.glLinkProgram st.shaderProgram)
  let success := env.linkStatus
  let st :=
    if success = 0 then
      st.print .cout ("Shader Program Linking Failed: %s" ++ env.programInfoLog ++ "\n")
    else st
  let st := st.call (.glDeleteShader vertexShader)
  st.call (.glDeleteShader fragmentShader)

/-- Lines 148 to 161 of `main`: create the vertex array and the buffer, upload
`squareVertices`, describe attribute 0. -/
def uploadVertices (env : Env) (st : State S) : State S :=
  let st := st.call (.glGenVertexArrays 1)
  let st := st.call (.glGenBuffers 1)
  let st := st.call (.glBindVertexArray env.VAO)
  let st := st.call (.glBindBuffer GL_ARRAY_BUFFER env.VBO)
  let st := st.call (.glBufferData GL_ARRAY_BUFFER (squareVertices.length * sizeofFloat)
    squareVertices GL_STATIC_DRAW)
  let st := st.call (.glVertexAttribPointer 0 3 GL_FLOAT GL_FALSE (3 * sizeofFloat) 0)
  st.call (.glEnableVertexAttribArray 0)

/-- The function `main`.  The result is the exit status, or `none` when the
given frames are used up while the window is still open, and the final
state. -/
def main (T : GlmScalar S) (env : Env) (frames : List (Frame S)) : Option Int × State S :=
  let st : State S := initialState env
  let st := st.call .glfwInit
  if !env.glfwInitOk then
    (some (-1), st.print .cerr "Failed to initialize GLFW\n")
  else
    let st := st.call (.glfwWindowHint GLFW_CONTEXT_VERSION_MAJOR 3)
    let st := st.call (.glfwWindowHint GLFW_CONTEXT_VERSION_MINOR 3)
    let st := st.call (.glfwWindowHint GLFW_OPENGL_PROFILE GLFW_OPENGL_CORE_PROFILE)
    let st := if env.apple then st.call (.glfwWindowHint GLFW_OPENGL_FORWARD_COMPAT GL_TRUE) else st
    let ScreenHeight := env.screenHeight
    let st := st.call
      (.glfwCreateWindow (ScreenHeight.tdiv 2) (ScreenHeight.tdiv 2) "OpenGL + GLFW")
    if !env.windowCreated then
      let st := st.print .cerr "Failed to create GLFW window\n"
      (some (-1), st.call .glfwTerminate)
    else
      let st := st.call .glfwMakeContextCurrent
      let st := st.call .glewInit
      if !env.glewInitOk then
        let st := st.print .cerr "Failed to initialize GLEW\n"
        (some (-1), st.call .glfwTerminate)
      else
        let st :=
          if env.apple then st
          else
            let st := st.call .glDebugMessageCallback
            let st := st.call (.glEnable GL_DEBUG_OUTPUT)
            st.call (.glEnable GL_DEBUG_OUTPUT_SYNCHRONOUS)
        let st := compileShaders env st
        let st := uploadVertices env st
        let st := st.call .glfwSetFramebufferSizeCallback
        let st := mainLoop T st frames
        if glfwWindowShouldClose st.window then
          let st := st.call (.glDeleteVertexArrays 1 env.VAO)
          let st := st.call (.glDeleteBuffers 1 env.VBO)
          let st := st.call (.glDeleteProgram st.shaderProgram)
          (some 0, st.call .glfwTerminate)
        else (none, st)

end Program

/-! ## `DebugMessageCallback` -/

/-- The function `DebugMessageCallback(source, type, id, severity, length,
message, userParam)`; the result is the text it writes. -/
def DebugMessageCallback (source type id severity : Nat) (message : String) :
    List (OStream × String) :=
  if id = 131169 ∨ id = 131185 ∨ id = 131218 ∨ id = 131204 ∨ id = 131222 ∨
      id = 131154 ∨ id = 0 then
    []
  else
    let debugMessageStream := ""
    let debugMessageStream := debugMessageStream ++ message ++ "\n"
    let debugMessageStream :=
      if source = GL_DEBUG_SOURCE_API then debugMessageStream ++ "Source: API"
      else if source = GL_DEBUG_SOURCE_WINDOW_SYSTEM then
        debugMessageStream ++ "Source: Window Manager"
      else if source = GL_DEBUG_SOURCE_SHADER_COMPILER then
        debugMessageStream ++ "Source: Shader Compiler"
      else if source = GL_DEBUG_SOURCE_THIRD_PARTY then
        debugMessageStream ++ "Source: Third Party"
      else if source = GL_DEBUG_SOURCE_APPLICATION then
        debugMessageStream ++ "Source: Application"
      else if source = GL_DEBUG_SOURCE_OTHER then debugMessageStream ++ "Source: Other"
      else debugMessageStream
    let debugMessageStream := debugMessageStream ++ "\n"
    let debugMessageStream :=
      if type = GL_DEBUG_TYPE_ERROR then debugMessageStream ++ "Type: Error"
      else if type = GL_DEBUG_TYPE_DEPRECATED_BEHAVIOR then
        debugMessageStream ++ "Type: Deprecated Behaviour"
      else if type = GL_DEBUG_TYPE_UNDEFINED_BEHAVIOR then
        debugMessageStream ++ "Type: Undefined Behaviour"
      else if type = GL_DEBUG_TYPE_PORTABILITY then debugMessageStream ++ "Type: Portability"
      else if type = GL_DEBUG_TYPE_PERFORMANCE then debugMessageStream ++ "Type: Performance"
      else if type = GL_DEBUG_TYPE_MARKER then debugMessageStream ++ "Type: Marker"
      else if type = GL_DEBUG_TYPE_PUSH_GROUP then debugMessageStream ++ "Type: Push Group"
      else if type = GL_DEBUG_TYPE_POP_GROUP then debugMessageStream ++ "Type: Pop Group"
      else if type = GL_DEBUG_TYPE_OTHER then debugMessageStream ++ "Type: Other"
      else debugMessageStream
    let debugMessageStream := debugMessageStream ++ "\n"
    let debugMessageStream :=
      if severity = GL_DEBUG_SEVERITY_HIGH then debugMessageStream ++ "Severity: high"
      else if severity = GL_DEBUG_SEVERITY_MEDIUM then debugMessageStream ++ "Severity: medium"
      else if severity = GL_DEBUG_SEVERITY_LOW then debugMessageStream ++ "Severity: low"
      else if severity = GL_DEBUG_SEVERITY_NOTIFICATION then
        debugMessageStream ++ "Severity: notification"
      else debugMessageStream
    [(.cerr, "OpenGL Message: " ++ toString type ++ " " ++ debugMessageStream ++ "\n")]

/-! ## A computable scalar model: whole degrees over the integers -/

/-- Cosine of `a` degrees, exact at the multiples of 90 degrees. -/
def degreeCos (a : Int) : Int :=
  if a % 360 = 0 then 1 else if a % 360 = 180 then -1 else 0

/-- Sine of `a` degrees, exact at the multiples of 90 degrees. -/
def degreeSin (a : Int) : Int :=
  if a % 360 = 90 then 1 else if a % 360 = 270 then -1 else 0

/-- Integer scalars with angles kept in whole degrees (`degToRad = 1`); the
trigonometric functions are exact at the multiples of a right angle, which is
all the concrete evaluations below use. -/
def rightAngles : GlmScalar Int :=
  ⟨degreeCos, degreeSin, fun x => x, 1⟩

/-- A window in which exactly the keys listed in `pressed` are down. -/
def windowWith (pressed : List Int) : Window :=
  ⟨fun k => if k ∈ pressed then GLFW_PRESS else GLFW_RELEASE, false⟩

/-- A sample matrix with sixteen distinct entries. -/
def sampleMatrix : Mat4 Int :=
  ⟨⟨1, 2, 3, 4⟩, ⟨5, 6, 7, 8⟩, ⟨9, 10, 11, 12⟩, ⟨13, 14, 15, 16⟩⟩

/-! ## Algebra of `glm::rotate` about the z axis -/

/-- The laws of exact arithmetic that the proofs about rotations use. -/
structure GlmScalar.Lawful {S : Type} [CommRing S] (T : GlmScalar S) : Prop where
  cos_sq_add_sin_sq : ∀ a, T.cos a * T.cos a + T.sin a * T.sin a = 1
  cos_add : ∀ a b, T.cos (a + b) = T.cos a * T.cos b - T.sin a * T.sin b
  sin_add : ∀ a b, T.sin (a + b) = T.sin a * T.cos b + T.cos a * T.sin b
  cos_zero : T.cos 0 = 1
  sin_zero : T.sin 0 = 0
  inversesqrt_one : T.inversesqrt 1 = 1

/-- The matrix of the rotation by `angle` about the z axis, in glm layout. -/
def rotZ {S : Type} [Zero S] [One S] [Neg S] (T : GlmScalar S) (angle : S) : Mat4 S :=
  ⟨⟨T.cos angle, T.sin angle, 0, 0⟩, ⟨-T.sin angle, T.cos angle, 0, 0⟩,
   ⟨0, 0, 1, 0⟩, ⟨0, 0, 0, 1⟩⟩

/-- Orthogonality as computed with glm: `m * transpose(m) == mat4(1)`. -/
def Mat4.Orthogonal {S : Type} [Zero S] [One S] [Add S] [Mul S] (m : Mat4 S) : Prop :=
  m.mul m.transpose = Mat4.identity

/-- The scalar model of exact real arithmetic: `cos` and `sin` are the real
functions, `inversesqrt x = 1 / √x`, and the literal of `glm::radians` is
`π / 180`. -/
def ExactReal (T : GlmScalar ℝ) : Prop :=
  T.cos = Real.cos ∧ T.sin = Real.sin ∧ T.inversesqrt = (fun x => 1 / Real.sqrt x) ∧
    T.degToRad = Real.pi / 180

/-- The key state of a window as `processInput` tests it. -/
def pressed (window : Window) (key : Int) : Prop :=
  glfwGetKey window key = GLFW_PRESS

instance (window : Window) (key : Int) : Decidable (pressed window key) :=
  inferInstanceAs (Decidable (glfwGetKey window key = GLFW_PRESS))

/-! ## Reading the call log -/

/-- Whether a logged call is `glDrawArrays`. -/
def Call.isDrawArrays {S : Type} : Call S → Bool
  | .glDrawArrays _ _ _ => true
  | _ => false

/-- The number of `glDrawArrays` calls in a call log. -/
def drawCalls {S : Type} (calls : List (Call S)) : Nat :=
  (calls.filter Call.isDrawArrays).length

/-- Whether an event is a change of the framebuffer size. -/
def Event.isFramebufferSize : Event → Bool
  | .framebufferSize _ _ => true
  | _ => false

/-- The floats that `glBufferData(target, size, data, usage)` copies: the first
`size / sizeof(float)` elements of `data`. -/
def transferred (size : Nat) (data : List ℚ) : List ℚ :=
  data.take (size / sizeofFloat)

/-- Vertex `i` as attribute 0 reads it from the buffer: three consecutive
floats, with stride `3 * sizeof(float)` and offset 0. -/
def vertex (buffer : List ℚ) (i : Nat) : Vec3 ℚ :=
  ⟨buffer.getD (3 * i) 0, buffer.getD (3 * i + 1) 0, buffer.getD (3 * i + 2) 0⟩

/-- The segments that `glDrawArrays(GL_LINES, first, count)` draws: segment `k`
joins vertex `first + 2k` to vertex `first + 2k + 1`, for `k < count / 2`. -/
def lineSegments (buffer : List ℚ) (first count : Nat) : List (Vec3 ℚ × Vec3 ℚ) :=
  (List.range (count / 2)).map fun k =>
    (vertex buffer (first + 2 * k), vertex buffer (first + 2 * k + 1))

/-- The corners of the square, in the order top-left, top-right, bottom-right,
bottom-left. -/
def squareCorners : List (Vec3 ℚ) :=
  [⟨-0.5, 0.5, 0⟩, ⟨0.5, 0.5, 0⟩, ⟨0.5, -0.5, 0⟩, ⟨-0.5, -0.5, 0⟩]

/-- The edges of the square: every corner joined to the next one, the last
to the first. -/
def squareEdges : List (Vec3 ℚ × Vec3 ℚ) :=
  squareCorners.zip (squareCorners.rotate 1)

/-- A segment parallel to a coordinate axis and of length 1: its end points
differ by exactly 1 in one coordinate and agree in the other two. -/
def AxisAlignedUnit (s : Vec3 ℚ × Vec3 ℚ) : Prop :=
  (|s.2.x - s.1.x| = 1 ∧ s.2.y = s.1.y ∧ s.2.z = s.1.z) ∨
  (s.2.x = s.1.x ∧ |s.2.y - s.1.y| = 1 ∧ s.2.z = s.1.z) ∨
  (s.2.x = s.1.x ∧ s.2.y = s.1.y ∧ |s.2.z - s.1.z| = 1)

/-- The square of the Euclidean length of a segment. -/
def squaredLength (s : Vec3 ℚ × Vec3 ℚ) : ℚ :=
  (s.2.x - s.1.x) * (s.2.x - s.1.x) + (s.2.y - s.1.y) * (s.2.y - s.1.y) +
    (s.2.z - s.1.z) * (s.2.z - s.1.z)

/-- The number of segments that have `p` as an end point. -/
def segmentsAt (segments : List (Vec3 ℚ × Vec3 ℚ)) (p : Vec3 ℚ) : Nat :=
  (segments.filter fun s => decide (s.1 = p ∨ s.2 = p)).length

/-! ## The record format of `DebugMessageCallback`, as a table -/

/-- The ids for which nothing is written. -/
def ignoredIds : List Nat :=
  [131169, 131185, 131218, 131204, 131222, 131154, 0]

/-- The label of every recognised `source`. -/
def sourceLabels : List (Nat × String) :=
  [(GL_DEBUG_SOURCE_API, "Source: API"),
   (GL_DEBUG_SOURCE_WINDOW_SYSTEM, "Source: Window Manager"),
   (GL_DEBUG_SOURCE_SHADER_COMPILER, "Source: Shader Compiler"),
   (GL_DEBUG_SOURCE_THIRD_PARTY, "Source: Third Party"),
   (GL_DEBUG_SOURCE_APPLICATION, "Source: Application"),
   (GL_DEBUG_SOURCE_OTHER, "Source: Other")]

/-- The label of every recognised `type`. -/
def typeLabels : List (Nat × String) :=
  [(GL_DEBUG_TYPE_ERROR, "Type: Error"),
   (GL_DEBUG_TYPE_DEPRECATED_BEHAVIOR, "Type: Deprecated Behaviour"),
   (GL_DEBUG_TYPE_UNDEFINED_BEHAVIOR, "Type: Undefined Behaviour"),
   (GL_DEBUG_TYPE_PORTABILITY, "Type: Portability"),
   (GL_DEBUG_TYPE_PERFORMANCE, "Type: Performance"),
   (GL_DEBUG_TYPE_MARKER, "Type: Marker"),
   (GL_DEBUG_TYPE_PUSH_GROUP, "Type: Push Group"),
   (GL_DEBUG_TYPE_POP_GROUP, "Type: Pop Group"),
   (GL_DEBUG_TYPE_OTHER, "Type: Other")]

/-- The label of every recognised `severity`. -/
def severityLabels : List (Nat × String) :=
  [(GL_DEBUG_SEVERITY_HIGH, "Severity: high"),
   (GL_DEBUG_SEVERITY_MEDIUM, "Severity: medium"),
   (GL_DEBUG_SEVERITY_LOW, "Severity: low"),
   (GL_DEBUG_SEVERITY_NOTIFICATION, "Severity: notification")]

/-- The line for an enum value: its label when the value is recognised, the
empty string otherwise. -/
def labelLine (labels : List (Nat × String)) (value : Nat) : String :=
  (labels.lookup value).getD ""

/-! ## The render loop, frame by frame -/

/-- The window satisfies `P` at the start of every iteration that the loop
body runs on `frames`, starting in state `st`. -/
def EachFrame {S : Type} [Zero S] [One S] [Add S] [Sub S] [Mul S] [Neg S] [OfNat S 90]
    (T : GlmScalar S) (P : Window → Prop) : State S → List (Frame S) → Prop
  | _, [] => True
  | st, frame :: frames => P st.window ∧ EachFrame T P (loopBody T st frame) frames

/-- The arguments of the calls of `processInput` that the loop makes on
`frames` from state `st`: the window and `deltaTime` of every iteration. -/
def loopInputs {S : Type} [Zero S] [One S] [Add S] [Sub S] [Mul S] [Neg S] [OfNat S 90]
    (T : GlmScalar S) : State S → List (Frame S) → List (Window × S)
  | _, [] => []
  | st, frame :: frames =>
      if glfwWindowShouldClose st.window then []
      else
        (st.window, frame.time - st.lastFrameStartTime) ::
          loopInputs T (loopBody T st frame) frames

/-! ## Sample inputs -/

/-- A start-up in which every library call succeeds. -/
def sampleEnv : Env :=
  { apple := false, glfwInitOk := true, screenHeight := 1080, windowCreated := true,
    window := windowWith [], glewInitOk := true,
    vertexShader := 1, vertexCompileStatus := 1, vertexInfoLog := "",
    fragmentShader := 2, fragmentCompileStatus := 1, fragmentInfoLog := "",
    program := 3, linkStatus := 1, programInfoLog := "",
    VAO := 1, VBO := 1, uniformLocation := 0 }

/-- A start-up in which the window is created and both shaders are rejected
by the driver, so that the program does not link either. -/
def failingEnv : Env :=
  { sampleEnv with
    vertexCompileStatus := 0, vertexInfoLog := "0:1: error",
    fragmentCompileStatus := 0, fragmentInfoLog := "0:2: error",
    linkStatus := 0, programInfoLog := "link error" }

/-- The start-up `sampleEnv` with the LEFT arrow key held down. -/
def leftHeldEnv : Env :=
  { sampleEnv with window := windowWith [GLFW_KEY_LEFT] }

/-- The state in which `main` enters the render loop after the start-up
`sampleEnv`, on the integer model. -/
def sampleState : State Int :=
  (main rightAngles sampleEnv []).2

/-! ## Lemmas -/

theorem Mat4.mul_assoc {S : Type} [CommRing S]
    (a b c : Mat4 S) : (a.mul b).mul c = a.mul (b.mul c) := by
  simp only [Mat4.mul, Mat4.mulVec, Vec4.scale, Vec4.add, Mat4.mk.injEq, Vec4.mk.injEq]
  refine ⟨⟨?_, ?_, ?_, ?_⟩, ⟨?_, ?_, ?_, ?_⟩, ⟨?_, ?_, ?_, ?_⟩, ⟨?_, ?_, ?_, ?_⟩⟩ <;> ring

theorem Mat4.mul_identity {S : Type} [CommRing S] (a : Mat4 S) : a.mul Mat4.identity = a := by
  rcases a with ⟨⟨_, _, _, _⟩, ⟨_, _, _, _⟩, ⟨_, _, _, _⟩, ⟨_, _, _, _⟩⟩
  simp [Mat4.mul, Mat4.mulVec, Vec4.scale, Vec4.add, Mat4.identity]

theorem Mat4.identity_mul {S : Type} [CommRing S] (a : Mat4 S) : Mat4.identity.mul a = a := by
  rcases a with ⟨⟨_, _, _, _⟩, ⟨_, _, _, _⟩, ⟨_, _, _, _⟩, ⟨_, _, _, _⟩⟩
  simp [Mat4.mul, Mat4.mulVec, Vec4.scale, Vec4.add, Mat4.identity]

theorem Mat4.transpose_mul {S : Type} [CommRing S] (a b : Mat4 S) :
    (a.mul b).transpose = b.transpose.mul a.transpose := by
  simp only [Mat4.mul, Mat4.mulVec, Vec4.scale, Vec4.add, Mat4.transpose, Mat4.mk.injEq,
    Vec4.mk.injEq]
  refine ⟨⟨?_, ?_, ?_, ?_⟩, ⟨?_, ?_, ?_, ?_⟩, ⟨?_, ?_, ?_, ?_⟩, ⟨?_, ?_, ?_, ?_⟩⟩ <;> ring

theorem rotate_z {S : Type} [CommRing S] (T : GlmScalar S) (hT : T.Lawful) (m : Mat4 S) (a : S) :
    rotate T m a ⟨0, 0, 1⟩ = m.mul (rotZ T a) := by
  rcases m with ⟨⟨_, _, _, _⟩, ⟨_, _, _, _⟩, ⟨_, _, _, _⟩, ⟨_, _, _, _⟩⟩
  simp only [rotate, normalize, Vec3.dot, Vec3.scale, Vec3.smul, rotZ, Mat4.mul, Mat4.mulVec,
    Vec4.scale, Vec4.add, Mat4.mk.injEq, Vec4.mk.injEq]
  have h1 : (0 : S) * 0 + 0 * 0 + 1 * 1 = 1 := by ring
  rw [h1, hT.inversesqrt_one]
  refine ⟨⟨?_, ?_, ?_, ?_⟩, ⟨?_, ?_, ?_, ?_⟩, ⟨?_, ?_, ?_, ?_⟩, ?_⟩ <;> first | ring1 | simp

theorem rotZ_mul {S : Type} [CommRing S] (T : GlmScalar S) (hT : T.Lawful) (a b : S) :
    (rotZ T a).mul (rotZ T b) = rotZ T (a + b) := by
  simp only [rotZ, Mat4.mul, Mat4.mulVec, Vec4.scale, Vec4.add, Mat4.mk.injEq, Vec4.mk.injEq,
    hT.cos_add, hT.sin_add]
  refine ⟨⟨?_, ?_, ?_, ?_⟩, ⟨?_, ?_, ?_, ?_⟩, ⟨?_, ?_, ?_, ?_⟩, ⟨?_, ?_, ?_, ?_⟩⟩ <;> ring

theorem rotZ_zero {S : Type} [CommRing S]
    (T : GlmScalar S) (hT : T.Lawful) : rotZ T 0 = Mat4.identity := by
  simp [rotZ, Mat4.identity, hT.cos_zero, hT.sin_zero]

theorem rotZ_orthogonal {S : Type} [CommRing S] (T : GlmScalar S) (hT : T.Lawful) (a : S) :
    (rotZ T a).mul (rotZ T a).transpose = Mat4.identity := by
  have h := hT.cos_sq_add_sin_sq a
  simp only [rotZ, Mat4.mul, Mat4.mulVec, Vec4.scale, Vec4.add, Mat4.transpose, Mat4.identity,
    Mat4.mk.injEq, Vec4.mk.injEq]
  refine ⟨⟨?_, ?_, ?_, ?_⟩, ⟨?_, ?_, ?_, ?_⟩, ⟨?_, ?_, ?_, ?_⟩, ⟨?_, ?_, ?_, ?_⟩⟩ <;>
    first | ring1 | linear_combination h

theorem rotate_z_orthogonal {S : Type} [CommRing S]
    (T : GlmScalar S) (hT : T.Lawful) (m : Mat4 S) (a : S)
    (hm : m.Orthogonal) : (rotate T m a ⟨0, 0, 1⟩).Orthogonal := by
  unfold Mat4.Orthogonal at *
  rw [rotate_z T hT, Mat4.transpose_mul, Mat4.mul_assoc, ← Mat4.mul_assoc (rotZ T a),
    rotZ_orthogonal T hT, Mat4.identity_mul, hm]

theorem rotate_z_rotate_z {S : Type} [CommRing S]
    (T : GlmScalar S) (hT : T.Lawful) (m : Mat4 S) (a b : S) :
    rotate T (rotate T m a ⟨0, 0, 1⟩) b ⟨0, 0, 1⟩ = rotate T m (a + b) ⟨0, 0, 1⟩ := by
  rw [rotate_z T hT, rotate_z T hT, rotate_z T hT, Mat4.mul_assoc, rotZ_mul T hT]

theorem rotate_z_zero {S : Type} [CommRing S] (T : GlmScalar S) (hT : T.Lawful) (m : Mat4 S) :
    rotate T m 0 ⟨0, 0, 1⟩ = m := by
  rw [rotate_z T hT, rotZ_zero T hT, Mat4.mul_identity]

theorem processInput_neither {S : Type} [Zero S] [One S] [Add S] [Sub S] [Mul S] [Neg S]
    [OfNat S 90] (T : GlmScalar S) (window : Window) (dt : S) (M : Mat4 S)
    (hl : ¬ pressed window GLFW_KEY_LEFT) (hr : ¬ pressed window GLFW_KEY_RIGHT) :
    processInput T window dt M = M := by
  unfold pressed at hl hr
  simp [processInput, hl, hr]

theorem processInput_left {S : Type} [Zero S] [One S] [Add S] [Sub S] [Mul S] [Neg S]
    [OfNat S 90] (T : GlmScalar S) (window : Window) (dt : S) (M : Mat4 S)
    (hl : pressed window GLFW_KEY_LEFT) (hr : ¬ pressed window GLFW_KEY_RIGHT) :
    processInput T window dt M = rotate T M (radians T (90 * dt)) ⟨0, 0, 1⟩ := by
  unfold pressed at hl hr
  simp [processInput, hl, hr]

theorem processInput_right {S : Type} [Zero S] [One S] [Add S] [Sub S] [Mul S] [Neg S]
    [OfNat S 90] (T : GlmScalar S) (window : Window) (dt : S) (M : Mat4 S)
    (hl : ¬ pressed window GLFW_KEY_LEFT) (hr : pressed window GLFW_KEY_RIGHT) :
    processInput T window dt M = rotate T M (radians T (-(90 * dt))) ⟨0, 0, 1⟩ := by
  unfold pressed at hl hr
  simp [processInput, hl, hr]

theorem processInput_both {S : Type} [Zero S] [One S] [Add S] [Sub S] [Mul S] [Neg S]
    [OfNat S 90] (T : GlmScalar S) (window : Window) (dt : S) (M : Mat4 S)
    (hl : pressed window GLFW_KEY_LEFT) (hr : pressed window GLFW_KEY_RIGHT) :
    processInput T window dt M =
      rotate T (rotate T M (radians T (90 * dt)) ⟨0, 0, 1⟩) (radians T (-(90 * dt)))
        ⟨0, 0, 1⟩ := by
  unfold pressed at hl hr
  simp [processInput, hl, hr]

theorem Mat4.identity_orthogonal {S : Type} [CommRing S] :
    (Mat4.identity : Mat4 S).Orthogonal := by
  simp [Mat4.Orthogonal, Mat4.mul, Mat4.mulVec, Vec4.scale, Vec4.add, Mat4.identity,
    Mat4.transpose]

theorem processInput_orthogonal {S : Type} [CommRing S] (T : GlmScalar S) (hT : T.Lawful)
    (window : Window) (dt : S) (M : Mat4 S) (hM : M.Orthogonal) :
    (processInput T window dt M).Orthogonal := by
  simp only [processInput]
  split_ifs
  · exact rotate_z_orthogonal T hT _ _ (rotate_z_orthogonal T hT _ _ hM)
  · exact rotate_z_orthogonal T hT _ _ hM
  · exact rotate_z_orthogonal T hT _ _ hM
  · exact hM

theorem foldl_processInput_orthogonal {S : Type} [CommRing S] (T : GlmScalar S)
    (hT : T.Lawful) (inputs : List (Window × S)) (M : Mat4 S) (hM : M.Orthogonal) :
    (inputs.foldl (fun M i => processInput T i.1 i.2 M) M).Orthogonal := by
  induction inputs generalizing M with
  | nil => exact hM
  | cons i rest ih => exact ih _ (processInput_orthogonal T hT i.1 i.2 M hM)

theorem exactReal_lawful (T : GlmScalar ℝ) (hT : ExactReal T) : T.Lawful := by
  obtain ⟨hc, hs, hi, _⟩ := hT
  refine ⟨?_, ?_, ?_, ?_, ?_, ?_⟩
  · intro a
    rw [hc, hs]
    have := Real.cos_sq_add_sin_sq a
    nlinarith [this]
  · intro a b
    rw [hc, hs, Real.cos_add]
  · intro a b
    rw [hc, hs, Real.sin_add]
  · rw [hc, Real.cos_zero]
  · rw [hs, Real.sin_zero]
  · rw [hi]
    simp

theorem drawCalls_append {S : Type} (xs ys : List (Call S)) :
    drawCalls (xs ++ ys) = drawCalls xs + drawCalls ys := by
  simp [drawCalls]

theorem drawCalls_render {S : Type} [Zero S] [One S] (st : State S) :
    drawCalls (render st).calls = drawCalls st.calls + 1 := by
  simp [render, State.call, drawCalls, Call.isDrawArrays]

theorem drawCalls_dispatch {S : Type} [Zero S] [One S] (st : State S) (e : Event) :
    drawCalls (dispatch st e).calls =
      drawCalls st.calls + (if e.isFramebufferSize then 1 else 0) := by
  cases e with
  | framebufferSize w h =>
      simp only [dispatch, framebufferSizeChanged]
      rw [drawCalls_render]
      simp [State.call, drawCalls, Call.isDrawArrays, Event.isFramebufferSize]
  | key k a => simp [dispatch, Event.isFramebufferSize]
  | close => simp [dispatch, Event.isFramebufferSize]
  | other => simp [dispatch, Event.isFramebufferSize]

theorem drawCalls_foldl_dispatch {S : Type} [Zero S] [One S] (events : List Event)
    (st : State S) :
    drawCalls (events.foldl dispatch st).calls =
      drawCalls st.calls + (events.filter Event.isFramebufferSize).length := by
  induction events generalizing st with
  | nil => simp
  | cons e rest ih =>
      rw [List.foldl_cons, ih, drawCalls_dispatch]
      by_cases he : e.isFramebufferSize = true
      · simp [he, List.filter_cons]
        omega
      · simp [he, List.filter_cons]

theorem labelLine_cons (k : Nat) (l : String) (rest : List (Nat × String)) (v : Nat) :
    labelLine ((k, l) :: rest) v = if v = k then l else labelLine rest v := by
  unfold labelLine
  by_cases h : v = k
  · subst h
    simp [List.lookup]
  · have hb : (v == k) = false := by simpa using h
    simp [List.lookup, hb, h]

theorem labelLine_nil (v : Nat) : labelLine [] v = "" := by
  simp [labelLine, List.lookup]

theorem sourceLine_append (s : String) (source : Nat) :
    (if source = GL_DEBUG_SOURCE_API then s ++ "Source: API"
      else if source = GL_DEBUG_SOURCE_WINDOW_SYSTEM then s ++ "Source: Window Manager"
      else if source = GL_DEBUG_SOURCE_SHADER_COMPILER then s ++ "Source: Shader Compiler"
      else if source = GL_DEBUG_SOURCE_THIRD_PARTY then s ++ "Source: Third Party"
      else if source = GL_DEBUG_SOURCE_APPLICATION then s ++ "Source: Application"
      else if source = GL_DEBUG_SOURCE_OTHER then s ++ "Source: Other"
      else s) = s ++ labelLine sourceLabels source := by
  simp only [sourceLabels, labelLine_cons, labelLine_nil]
  split_ifs <;> simp

theorem typeLine_append (s : String) (type : Nat) :
    (if type = GL_DEBUG_TYPE_ERROR then s ++ "Type: Error"
      else if type = GL_DEBUG_TYPE_DEPRECATED_BEHAVIOR then s ++ "Type: Deprecated Behaviour"
      else if type = GL_DEBUG_TYPE_UNDEFINED_BEHAVIOR then s ++ "Type: Undefined Behaviour"
      else if type = GL_DEBUG_TYPE_PORTABILITY then s ++ "Type: Portability"
      else if type = GL_DEBUG_TYPE_PERFORMANCE then s ++ "Type: Performance"
      else if type = GL_DEBUG_TYPE_MARKER then s ++ "Type: Marker"
      else if type = GL_DEBUG_TYPE_PUSH_GROUP then s ++ "Type: Push Group"
      else if type = GL_DEBUG_TYPE_POP_GROUP then s ++ "Type: Pop Group"
      else if type = GL_DEBUG_TYPE_OTHER then s ++ "Type: Other"
      else s) = s ++ labelLine typeLabels type := by
  simp only [typeLabels, labelLine_cons, labelLine_nil]
  split_ifs <;> simp

theorem severityLine_append (s : String) (severity : Nat) :
    (if severity = GL_DEBUG_SEVERITY_HIGH then s ++ "Severity: high"
      else if severity = GL_DEBUG_SEVERITY_MEDIUM then s ++ "Severity: medium"
      else if severity = GL_DEBUG_SEVERITY_LOW then s ++ "Severity: low"
      else if severity = GL_DEBUG_SEVERITY_NOTIFICATION then s ++ "Severity: notification"
      else s) = s ++ labelLine severityLabels severity := by
  simp only [severityLabels, labelLine_cons, labelLine_nil]
  split_ifs <;> simp

theorem render_fields {S : Type} [Zero S] [One S] (st : State S) :
    (render st).rotationMatrix = st.rotationMatrix ∧
      (render st).lastFrameStartTime = st.lastFrameStartTime ∧
      (render st).deltaTimes = st.deltaTimes ∧ (render st).window = st.window := by
  simp [render, State.call]

theorem dispatch_fields {S : Type} [Zero S] [One S] (st : State S) (e : Event) :
    (dispatch st e).rotationMatrix = st.rotationMatrix ∧
      (dispatch st e).lastFrameStartTime = st.lastFrameStartTime ∧
      (dispatch st e).deltaTimes = st.deltaTimes := by
  cases e with
  | framebufferSize w h =>
      obtain ⟨h1, h2, h3, _⟩ := render_fields (st.call (.glViewport 0 0 w h))
      exact ⟨h1, h2, h3⟩
  | key k a => exact ⟨rfl, rfl, rfl⟩
  | close => exact ⟨rfl, rfl, rfl⟩
  | other => exact ⟨rfl, rfl, rfl⟩

theorem foldl_dispatch_fields {S : Type} [Zero S] [One S] (events : List Event) (st : State S) :
    (events.foldl dispatch st).rotationMatrix = st.rotationMatrix ∧
      (events.foldl dispatch st).lastFrameStartTime = st.lastFrameStartTime ∧
      (events.foldl dispatch st).deltaTimes = st.deltaTimes := by
  induction events generalizing st with
  | nil => exact ⟨rfl, rfl, rfl⟩
  | cons e rest ih =>
      obtain ⟨h1, h2, h3⟩ := ih (dispatch st e)
      obtain ⟨g1, g2, g3⟩ := dispatch_fields st e
      exact ⟨h1.trans g1, h2.trans g2, h3.trans g3⟩

theorem loopBody_fields {S : Type} [Zero S] [One S] [Add S] [Sub S] [Mul S] [Neg S] [OfNat S 90]
    (T : GlmScalar S) (st : State S) (frame : Frame S) :
    (loopBody T st frame).rotationMatrix =
        processInput T st.window (frame.time - st.lastFrameStartTime) st.rotationMatrix ∧
      (loopBody T st frame).lastFrameStartTime = frame.time ∧
      (loopBody T st frame).deltaTimes =
        st.deltaTimes ++ [frame.time - st.lastFrameStartTime] := by
  simp only [loopBody, glfwPollEvents]
  refine ⟨?_, ?_, ?_⟩
  · rw [(foldl_dispatch_fields _ _).1]
    simp [State.call, (render_fields _).1]
  · rw [(foldl_dispatch_fields _ _).2.1]
    simp [State.call, (render_fields _).2.1]
  · rw [(foldl_dispatch_fields _ _).2.2]
    simp [State.call, (render_fields _).2.2.1]

/-- The frame start times seen by the loop, and for each the one before it. -/
theorem mainLoop_times {S : Type} [CommRing S]
    (T : GlmScalar S) (frames : List (Frame S)) (st : State S)
    (hopen : EachFrame T (fun w => glfwWindowShouldClose w = false) st frames) :
    (mainLoop T st frames).deltaTimes =
        st.deltaTimes ++ List.zipWith (fun t previous => t - previous)
          (frames.map Frame.time) (st.lastFrameStartTime :: frames.map Frame.time) ∧
      (mainLoop T st frames).lastFrameStartTime =
        ((frames.map Frame.time).getLast?).getD st.lastFrameStartTime ∧
      (mainLoop T st frames).deltaTimes.sum =
        st.deltaTimes.sum +
          ((mainLoop T st frames).lastFrameStartTime - st.lastFrameStartTime) := by
  induction frames generalizing st with
  | nil => simp [mainLoop]
  | cons f rest ih =>
      obtain ⟨ho, hrest⟩ := hopen
      obtain ⟨h1, h2, h3⟩ := ih (loopBody T st f) hrest
      obtain ⟨_, g2, g3⟩ := loopBody_fields T st f
      have hm : mainLoop T st (f :: rest) = mainLoop T (loopBody T st f) rest := by
        simp [mainLoop, ho]
      rw [hm]
      refine ⟨?_, ?_, ?_⟩
      · rw [h1, g2, g3]
        simp
      · rw [h2, g2]
        cases rest with
        | nil => simp
        | cons g more =>
            simp only [List.map_cons]
            rw [List.getLast?_cons_cons, List.getLast?_eq_getLast _ (List.cons_ne_nil _ _)]
            rfl
      · rw [h3, g3, g2]
        simp only [List.sum_append, List.sum_cons, List.sum_nil]
        ring

/-- With LEFT and not RIGHT down in every frame the loop turns the matrix by
`radians(90 * (t_n - t_0))`. -/
theorem mainLoop_left {S : Type} [CommRing S]
    (T : GlmScalar S) (hT : T.Lawful) (frames : List (Frame S))
    (st : State S)
    (hopen : EachFrame T (fun w => glfwWindowShouldClose w = false) st frames)
    (hkeys : EachFrame T (fun w => pressed w GLFW_KEY_LEFT ∧ ¬ pressed w GLFW_KEY_RIGHT)
      st frames) :
    (mainLoop T st frames).rotationMatrix =
      rotate T st.rotationMatrix
        (radians T (90 * ((mainLoop T st frames).lastFrameStartTime - st.lastFrameStartTime)))
        ⟨0, 0, 1⟩ := by
  induction frames generalizing st with
  | nil => simp [mainLoop, radians, rotate_z_zero T hT]
  | cons f rest ih =>
      obtain ⟨ho, hrest⟩ := hopen
      obtain ⟨hk, hkrest⟩ := hkeys
      obtain ⟨g1, g2, _⟩ := loopBody_fields T st f
      have hm : mainLoop T st (f :: rest) = mainLoop T (loopBody T st f) rest := by
        simp [mainLoop, ho]
      rw [hm, ih _ hrest hkrest, g1, g2,
        processInput_left T st.window _ st.rotationMatrix hk.1 hk.2,
        rotate_z_rotate_z T hT]
      congr 1
      simp only [radians]
      ring

/-- With RIGHT and not LEFT down in every frame the loop turns the matrix by
`radians(-(90 * (t_n - t_0)))`. -/
theorem mainLoop_right {S : Type} [CommRing S] (T : GlmScalar S) (hT : T.Lawful)
    (frames : List (Frame S)) (st : State S)
    (hopen : EachFrame T (fun w => glfwWindowShouldClose w = false) st frames)
    (hkeys : EachFrame T (fun w => ¬ pressed w GLFW_KEY_LEFT ∧ pressed w GLFW_KEY_RIGHT)
      st frames) :
    (mainLoop T st frames).rotationMatrix =
      rotate T st.rotationMatrix
        (radians T
          (-(90 * ((mainLoop T st frames).lastFrameStartTime - st.lastFrameStartTime))))
        ⟨0, 0, 1⟩ := by
  induction frames generalizing st with
  | nil => simp [mainLoop, radians, rotate_z_zero T hT]
  | cons f rest ih =>
      obtain ⟨ho, hrest⟩ := hopen
      obtain ⟨hk, hkrest⟩ := hkeys
      obtain ⟨g1, g2, _⟩ := loopBody_fields T st f
      have hm : mainLoop T st (f :: rest) = mainLoop T (loopBody T st f) rest := by
        simp [mainLoop, ho]
      rw [hm, ih _ hrest hkrest, g1, g2,
        processInput_right T st.window _ st.rotationMatrix hk.1 hk.2,
        rotate_z_rotate_z T hT]
      congr 1
      simp only [radians]
      ring

theorem State.call_rotationMatrix {S : Type} (st : State S) (c : Call S) :
    (st.call c).rotationMatrix = st.rotationMatrix := by
  simp only [State.call]

theorem State.print_rotationMatrix {S : Type} (st : State S) (o : OStream) (text : String) :
    (st.print o text).rotationMatrix = st.rotationMatrix := by
  simp only [State.print]

theorem compileShaders_rotationMatrix {S : Type} (env : Env) (st : State S) :
    (compileShaders env st).rotationMatrix = st.rotationMatrix := by
  simp only [compileShaders, State.call, State.print]
  split_ifs <;> simp only

theorem uploadVertices_rotationMatrix {S : Type} (env : Env) (st : State S) :
    (uploadVertices env st).rotationMatrix = st.rotationMatrix := by
  simp only [uploadVertices, State.call]

/-- The matrix the loop leaves is the matrix it starts from after the calls
of `processInput` listed by `loopInputs`. -/
theorem mainLoop_rotationMatrix {S : Type} [Zero S] [One S] [Add S] [Sub S] [Mul S] [Neg S]
    [OfNat S 90] (T : GlmScalar S) (frames : List (Frame S)) (st : State S) :
    (mainLoop T st frames).rotationMatrix =
      (loopInputs T st frames).foldl (fun M i => processInput T i.1 i.2 M)
        st.rotationMatrix := by
  induction frames generalizing st with
  | nil => simp only [mainLoop, loopInputs, List.foldl_nil]
  | cons f rest ih =>
      by_cases hc : glfwWindowShouldClose st.window = true
      · simp only [mainLoop, loopInputs, hc, if_true, List.foldl_nil]
      · simp only [mainLoop, loopInputs, hc, Bool.false_eq_true, if_false, List.foldl_cons]
        rw [ih, (loopBody_fields T st f).1]

/-- The matrix `main` ends with is `mat4(1)` after finitely many calls of
`processInput`. -/
theorem main_rotationMatrix {S : Type} [Zero S] [One S] [Add S] [Sub S] [Mul S] [Neg S]
    [OfNat S 90] (T : GlmScalar S) (env : Env) (frames : List (Frame S)) :
    ∃ inputs : List (Window × S),
      (main T env frames).2.rotationMatrix =
        inputs.foldl (fun M i => processInput T i.1 i.2 M) Mat4.identity := by
  have h0 : (initialState env : State S).rotationMatrix = Mat4.identity := by
    simp only [initialState]
  simp only [main]
  split_ifs <;>
    simp only [State.call_rotationMatrix, State.print_rotationMatrix,
      mainLoop_rotationMatrix, compileShaders_rotationMatrix, uploadVertices_rotationMatrix,
      h0] <;>
    first
      | exact ⟨[], rfl⟩
      | exact ⟨_, rfl⟩

/-! ## Theorems -/

/-- C1: `processInput` leaves the matrix unchanged when neither LEFT nor RIGHT
is pressed, replaces it by `rotate(M, radians(90 * dt), (0,0,1))` when only
LEFT is pressed and by `rotate(M, radians(-(90 * dt)), (0,0,1))` when only
RIGHT is pressed; two windows that agree on whether LEFT is pressed and on
whether RIGHT is pressed give the same new matrix. -/
theorem processInput_cases {S : Type} [Zero S] [One S] [Add S] [Sub S] [Mul S] [Neg S]
    [OfNat S 90] (T : GlmScalar S) (window : Window) (dt : S) (M : Mat4 S) :
    (¬ pressed window GLFW_KEY_LEFT → ¬ pressed window GLFW_KEY_RIGHT →
        processInput T window dt M = M) ∧
    (pressed window GLFW_KEY_LEFT → ¬ pressed window GLFW_KEY_RIGHT →
        processInput T window dt M = rotate T M (radians T (90 * dt)) ⟨0, 0, 1⟩) ∧
    (¬ pressed window GLFW_KEY_LEFT → pressed window GLFW_KEY_RIGHT →
        processInput T window dt M = rotate T M (radians T (-(90 * dt))) ⟨0, 0, 1⟩) ∧
    (∀ other : Window,
        (pressed window GLFW_KEY_LEFT ↔ pressed other GLFW_KEY_LEFT) →
        (pressed window GLFW_KEY_RIGHT ↔ pressed other GLFW_KEY_RIGHT) →
        processInput T window dt M = processInput T other dt M) := by
  refine ⟨processInput_neither T window dt M, processInput_left T window dt M,
    processInput_right T window dt M, ?_⟩
  · intro other hl hr
    unfold pressed at hl hr
    simp only [processInput, hl, hr]

/-- Witness for C1 on the integer model, with `dt = 1` and a matrix of sixteen
distinct entries: no key, LEFT only, RIGHT only, and a second window that has
a further key down. -/
theorem processInput_cases_witness :
    processInput rightAngles (windowWith []) 1 sampleMatrix = sampleMatrix ∧
    processInput rightAngles (windowWith [GLFW_KEY_LEFT]) 1 sampleMatrix =
      ⟨⟨5, 6, 7, 8⟩, ⟨-1, -2, -3, -4⟩, ⟨9, 10, 11, 12⟩, ⟨13, 14, 15, 16⟩⟩ ∧
    processInput rightAngles (windowWith [GLFW_KEY_RIGHT]) 1 sampleMatrix =
      ⟨⟨-5, -6, -7, -8⟩, ⟨1, 2, 3, 4⟩, ⟨9, 10, 11, 12⟩, ⟨13, 14, 15, 16⟩⟩ ∧
    processInput rightAngles (windowWith [GLFW_KEY_LEFT]) 1 sampleMatrix =
      processInput rightAngles (windowWith [GLFW_KEY_LEFT, 32]) 1 sampleMatrix :=
  ⟨(processInput_cases rightAngles (windowWith []) 1 sampleMatrix).1
      (by decide) (by decide),
   ((processInput_cases rightAngles (windowWith [GLFW_KEY_LEFT]) 1 sampleMatrix).2.1
      (by decide) (by decide)).trans (by decide),
   ((processInput_cases rightAngles (windowWith [GLFW_KEY_RIGHT]) 1 sampleMatrix).2.2.1
      (by decide) (by decide)).trans (by decide),
   (processInput_cases rightAngles (windowWith [GLFW_KEY_LEFT]) 1 sampleMatrix).2.2.2
      (windowWith [GLFW_KEY_LEFT, 32]) (by decide) (by decide)⟩

/-- C2: `squareVertices` holds 24 floats, three for each of eight vertices;
the upload passes `24 * sizeof(float)` bytes and `squareVertices` itself to
`glBufferData`, which copies exactly those 24 floats; `render` issues
`glDrawArrays(GL_LINES, 0, 8)`, where `8 = squareVertices.size() / 3`; the
vertices drawn are all the uploaded ones and none past the end of the
buffer. -/
theorem squareVertices_upload_and_draw {S : Type} [Zero S] [One S] (env : Env) (st : State S) :
    squareVertices.length = 24 ∧ squareVertices.length = 3 * 8 ∧
    (uploadVertices env st).calls = st.calls ++
      [.glGenVertexArrays 1, .glGenBuffers 1, .glBindVertexArray env.VAO,
       .glBindBuffer GL_ARRAY_BUFFER env.VBO,
       .glBufferData GL_ARRAY_BUFFER (24 * sizeofFloat) squareVertices GL_STATIC_DRAW,
       .glVertexAttribPointer 0 3 GL_FLOAT GL_FALSE (3 * sizeofFloat) 0,
       .glEnableVertexAttribArray 0] ∧
    transferred (24 * sizeofFloat) squareVertices = squareVertices ∧
    (render st).calls = st.calls ++
      [.glClearColor 0 0 0 1, .glClear GL_COLOR_BUFFER_BIT, .glUseProgram st.shaderProgram,
       .glUniformMatrix4fv st.uniformLocation 1 GL_FALSE st.rotationMatrix,
       .glDrawArrays GL_LINES 0 8, .glfwSwapBuffers] ∧
    squareVertices.length / 3 = 8 ∧
    0 + 8 = (24 * sizeofFloat) / (3 * sizeofFloat) := by
  have hlen : squareVertices.length = 24 := by simp [squareVertices]
  refine ⟨hlen, hlen, ?_, ?_, ?_, ?_, ?_⟩
  · simp [uploadVertices, State.call, hlen]
  · simp [transferred, squareVertices, sizeofFloat]
  · simp [render, State.call, hlen]
  · rw [hlen]
  · simp [sizeofFloat]

/-- C3: read as `GL_LINES` pairs, the eight vertices of `squareVertices` are
the four edges of the square with corners (-0.5,0.5,0), (0.5,0.5,0),
(0.5,-0.5,0), (-0.5,-0.5,0): four segments, each parallel to an axis and of
length 1, the end of segment `k` is the start of segment `k+1` and the end of
the last is the start of the first, and every corner is an end point of
exactly two segments. -/
theorem squareVertices_wireframe :
    lineSegments squareVertices 0 8 = squareEdges ∧
    (lineSegments squareVertices 0 8).length = 4 ∧
    (∀ s ∈ lineSegments squareVertices 0 8, AxisAlignedUnit s ∧ squaredLength s = 1) ∧
    (∀ k, k < 4 →
      ((lineSegments squareVertices 0 8).getD k (⟨0, 0, 0⟩, ⟨0, 0, 0⟩)).2 =
        ((lineSegments squareVertices 0 8).getD ((k + 1) % 4) (⟨0, 0, 0⟩, ⟨0, 0, 0⟩)).1) ∧
    (∀ p ∈ squareCorners, segmentsAt (lineSegments squareVertices 0 8) p = 2) := by
  have hseg : lineSegments squareVertices 0 8 =
      [(⟨-0.5, 0.5, 0⟩, ⟨0.5, 0.5, 0⟩), (⟨0.5, 0.5, 0⟩, ⟨0.5, -0.5, 0⟩),
       (⟨0.5, -0.5, 0⟩, ⟨-0.5, -0.5, 0⟩), (⟨-0.5, -0.5, 0⟩, ⟨-0.5, 0.5, 0⟩)] := by
    simp [lineSegments, vertex, squareVertices, List.range_succ]
    norm_num
  have hedges : squareEdges =
      [(⟨-0.5, 0.5, 0⟩, ⟨0.5, 0.5, 0⟩), (⟨0.5, 0.5, 0⟩, ⟨0.5, -0.5, 0⟩),
       (⟨0.5, -0.5, 0⟩, ⟨-0.5, -0.5, 0⟩), (⟨-0.5, -0.5, 0⟩, ⟨-0.5, 0.5, 0⟩)] := rfl
  rw [hseg]
  refine ⟨hedges.symm, rfl, ?_, ?_, ?_⟩
  · simp [AxisAlignedUnit, squaredLength]
    norm_num
  · intro k hk
    interval_cases k <;> rfl
  · simp [squareCorners, segmentsAt, List.filter_cons]
    norm_num

/-- C4: over exact real arithmetic, starting from `rotationMatrix = mat4(1)`,
after any finite sequence of `processInput` calls (any key states, any
`deltaTime`s) the matrix `M` satisfies `M * transpose(M) = mat4(1)`; in
particular the matrix that `main` ends with does, for every start-up and all
frames. -/
theorem rotationMatrix_orthogonal (T : GlmScalar ℝ) (hT : ExactReal T) :
    (∀ inputs : List (Window × ℝ),
      (inputs.foldl (fun M i => processInput T i.1 i.2 M) Mat4.identity).Orthogonal) ∧
    (∀ (env : Env) (frames : List (Frame ℝ)),
      (main T env frames).2.rotationMatrix.Orthogonal) := by
  have h : ∀ inputs : List (Window × ℝ),
      (inputs.foldl (fun M i => processInput T i.1 i.2 M) Mat4.identity).Orthogonal :=
    fun inputs =>
      foldl_processInput_orthogonal T (exactReal_lawful T hT) inputs Mat4.identity
        Mat4.identity_orthogonal
  refine ⟨h, ?_⟩
  intro env frames
  obtain ⟨inputs, hm⟩ := main_rotationMatrix T env frames
  rw [hm]
  exact h inputs

/-- Witness for C4: LEFT held for half a second, then RIGHT for a third. -/
theorem rotationMatrix_orthogonal_witness :
    ([(windowWith [GLFW_KEY_LEFT], (1 / 2 : ℝ)), (windowWith [GLFW_KEY_RIGHT], 1 / 3)].foldl
      (fun M i =>
        processInput ⟨Real.cos, Real.sin, fun x => 1 / Real.sqrt x, Real.pi / 180⟩ i.1 i.2 M)
      Mat4.identity).Orthogonal :=
  (rotationMatrix_orthogonal ⟨Real.cos, Real.sin, fun x => 1 / Real.sqrt x, Real.pi / 180⟩
    ⟨rfl, rfl, rfl, rfl⟩).1
    [(windowWith [GLFW_KEY_LEFT], 1 / 2), (windowWith [GLFW_KEY_RIGHT], 1 / 3)]

/-- C5, as the code has it: one iteration of the render loop calls
`glDrawArrays` once in `render` and once more for every framebuffer-size event
that `glfwPollEvents` delivers in that iteration, whatever the key state and
the other events; so exactly once when no such event is delivered. -/
theorem loopBody_drawCalls {S : Type} [Zero S] [One S] [Add S] [Sub S] [Mul S] [Neg S]
    [OfNat S 90] (T : GlmScalar S) (st : State S) (frame : Frame S) :
    drawCalls (loopBody T st frame).calls =
      drawCalls st.calls + 1 + (frame.events.filter Event.isFramebufferSize).length := by
  simp only [loopBody, glfwPollEvents]
  rw [drawCalls_foldl_dispatch]
  simp only [State.call, drawCalls_append, drawCalls_render]
  simp [drawCalls, Call.isDrawArrays]

/-- C5, counterexample to "exactly once whatever events are delivered": in an
iteration in which one framebuffer-size event is delivered, `glDrawArrays` is
called twice. -/
theorem loopBody_drawCalls_resize :
    drawCalls (loopBody rightAngles sampleState ⟨1, [.framebufferSize 800 600]⟩).calls =
        drawCalls sampleState.calls + 2 ∧
      drawCalls (loopBody rightAngles sampleState ⟨1, [.framebufferSize 800 600]⟩).calls ≠
        drawCalls sampleState.calls + 1 := by
  decide

/-- C6, evaluated on a start-up in which both shaders fail to compile and the
program fails to link: `main` writes the three diagnostics to standard output
and nothing to standard error, whereas the failure of `glfwInit`, of
`glfwCreateWindow` and of `glewInit` is written to standard error. -/
theorem main_shader_failures_on_cout :
    (main rightAngles failingEnv []).2.out =
      [(OStream.cout, "Vertex Shader Compilation Failed:0:1: error\n"),
       (OStream.cout, "Fragment Shader Compilation Failed:0:2: error\n"),
       (OStream.cout, "Shader Program Linking Failed: %slink error\n")] ∧
    (main rightAngles { sampleEnv with glfwInitOk := false } []).2.out =
      [(OStream.cerr, "Failed to initialize GLFW\n")] ∧
    (main rightAngles { sampleEnv with windowCreated := false } []).2.out =
      [(OStream.cerr, "Failed to create GLFW window\n")] ∧
    (main rightAngles { sampleEnv with glewInitOk := false } []).2.out =
      [(OStream.cerr, "Failed to initialize GLEW\n")] := by
  refine ⟨?_, ?_, ?_, ?_⟩ <;> decide

/-- C7: `DebugMessageCallback` writes nothing when `id` is one of 131169,
131185, 131218, 131204, 131222, 131154, 0; for every other `id` it writes one
record to standard error, `"OpenGL Message: " ++ decimal(type) ++ " " ++
message ++ "\n" ++ sourceLine ++ "\n" ++ typeLine ++ "\n" ++ severityLine ++
"\n"`, where each line is the label of a recognised value and empty for any
other value; for instance the labels are "Source: API", "Type: Error" and
"Severity: high". -/
theorem DebugMessageCallback_record (source type id severity : Nat) (message : String) :
    (id ∈ ignoredIds → DebugMessageCallback source type id severity message = []) ∧
    (id ∉ ignoredIds →
      DebugMessageCallback source type id severity message =
        [(OStream.cerr,
          "OpenGL Message: " ++ toString type ++ " " ++ message ++ "\n" ++
            labelLine sourceLabels source ++ "\n" ++ labelLine typeLabels type ++ "\n" ++
            labelLine severityLabels severity ++ "\n")]) ∧
    labelLine sourceLabels GL_DEBUG_SOURCE_API = "Source: API" ∧
    labelLine typeLabels GL_DEBUG_TYPE_ERROR = "Type: Error" ∧
    labelLine severityLabels GL_DEBUG_SEVERITY_HIGH = "Severity: high" ∧
    (∀ (labels : List (Nat × String)) (value : Nat),
      (∀ p ∈ labels, p.1 ≠ value) → labelLine labels value = "") := by
  refine ⟨?_, ?_, by decide, by decide, by decide, ?_⟩
  · intro h
    have h2 : id = 131169 ∨ id = 131185 ∨ id = 131218 ∨ id = 131204 ∨ id = 131222 ∨
        id = 131154 ∨ id = 0 := by
      simpa [ignoredIds] using h
    simp only [DebugMessageCallback, if_pos h2]
  · intro h
    have h2 : ¬ (id = 131169 ∨ id = 131185 ∨ id = 131218 ∨ id = 131204 ∨ id = 131222 ∨
        id = 131154 ∨ id = 0) := by
      simpa [ignoredIds] using h
    simp only [DebugMessageCallback, if_neg h2]
    rw [sourceLine_append, typeLine_append, severityLine_append]
    simp [String.append_assoc]
  · intro labels value h
    induction labels with
    | nil => exact labelLine_nil value
    | cons p rest ih =>
        obtain ⟨k, l⟩ := p
        rw [labelLine_cons]
        have hk : value ≠ k := fun e => h (k, l) (by simp) e.symm
        rw [if_neg hk]
        exact ih (fun q hq => h q (by simp [hq]))

/-- Witness for C7: an ignored id writes nothing; an API error of high
severity and a message with unrecognised enum values write the records
shown. -/
theorem DebugMessageCallback_record_witness :
    DebugMessageCallback GL_DEBUG_SOURCE_API GL_DEBUG_TYPE_ERROR 131185
        GL_DEBUG_SEVERITY_HIGH "bad" = [] ∧
    DebugMessageCallback GL_DEBUG_SOURCE_API GL_DEBUG_TYPE_ERROR 7
        GL_DEBUG_SEVERITY_HIGH "bad" =
      [(OStream.cerr,
        "OpenGL Message: 33356 bad\nSource: API\nType: Error\nSeverity: high\n")] ∧
    DebugMessageCallback 5 6 7 8 "bad" = [(OStream.cerr, "OpenGL Message: 6 bad\n\n\n\n")] :=
  ⟨(DebugMessageCallback_record GL_DEBUG_SOURCE_API GL_DEBUG_TYPE_ERROR 131185
      GL_DEBUG_SEVERITY_HIGH "bad").1 (by decide),
   ((DebugMessageCallback_record GL_DEBUG_SOURCE_API GL_DEBUG_TYPE_ERROR 7
      GL_DEBUG_SEVERITY_HIGH "bad").2.1 (by decide)).trans (by decide),
   ((DebugMessageCallback_record 5 6 7 8 "bad").2.1 (by decide)).trans (by decide)⟩

/-- C8: over exact real arithmetic, for `n ≥ 1` frames with start times
`t1, ..., tn` (the window open at each loop test, `lastFrameStartTime = 0`
before the first), the `deltaTime`s the loop computes are `t1 - 0, t2 - t1,
..., tn - t(n-1)` and sum to `tn`; with LEFT and not RIGHT pressed in each
frame the matrix after frame `n` is the initial matrix rotated about (0,0,1)
by `radians(90 * tn)`, and with RIGHT and not LEFT pressed in each frame by
`radians(-(90 * tn))`. -/
theorem mainLoop_rotation_speed (T : GlmScalar ℝ) (hT : ExactReal T) (st : State ℝ)
    (frames : List (Frame ℝ)) (hne : frames ≠ [])
    (h0 : st.lastFrameStartTime = 0) (hd : st.deltaTimes = [])
    (hopen : EachFrame T (fun w => glfwWindowShouldClose w = false) st frames) :
    (mainLoop T st frames).deltaTimes =
        List.zipWith (fun t previous => t - previous)
          (frames.map Frame.time) (0 :: frames.map Frame.time) ∧
    (mainLoop T st frames).deltaTimes.sum = (frames.getLast hne).time ∧
    (EachFrame T (fun w => pressed w GLFW_KEY_LEFT ∧ ¬ pressed w GLFW_KEY_RIGHT) st frames →
      (mainLoop T st frames).rotationMatrix =
        rotate T st.rotationMatrix (radians T (90 * (frames.getLast hne).time)) ⟨0, 0, 1⟩) ∧
    (EachFrame T (fun w => ¬ pressed w GLFW_KEY_LEFT ∧ pressed w GLFW_KEY_RIGHT) st frames →
      (mainLoop T st frames).rotationMatrix =
        rotate T st.rotationMatrix (radians T (-(90 * (frames.getLast hne).time)))
          ⟨0, 0, 1⟩) := by
  have hlaw := exactReal_lawful T hT
  obtain ⟨h1, h2, h3⟩ := mainLoop_times T frames st hopen
  have hlast : (mainLoop T st frames).lastFrameStartTime = (frames.getLast hne).time := by
    rw [h2, List.getLast?_map, List.getLast?_eq_getLast _ hne]
    rfl
  refine ⟨?_, ?_, ?_, ?_⟩
  · rw [h1, hd, h0]
    rfl
  · rw [h3, hd, h0, hlast]
    simp
  · intro hk
    rw [mainLoop_left T hlaw frames st hopen hk, hlast, h0, sub_zero]
  · intro hk
    rw [mainLoop_right T hlaw frames st hopen hk, hlast, h0, sub_zero]

/-- Witness for C8: LEFT held, two frames starting at 1/2 s and 2 s, the
second one with a resize event: the `deltaTime`s sum to 2 and the identity is
turned by `radians(90 * 2)`. -/
theorem mainLoop_rotation_speed_witness :
    (mainLoop ⟨Real.cos, Real.sin, fun x => 1 / Real.sqrt x, Real.pi / 180⟩
        (initialState leftHeldEnv)
        [⟨1 / 2, []⟩, ⟨2, [.framebufferSize 800 600]⟩]).deltaTimes.sum = 2 ∧
    (mainLoop ⟨Real.cos, Real.sin, fun x => 1 / Real.sqrt x, Real.pi / 180⟩
        (initialState leftHeldEnv)
        [⟨1 / 2, []⟩, ⟨2, [.framebufferSize 800 600]⟩]).rotationMatrix =
      rotate ⟨Real.cos, Real.sin, fun x => 1 / Real.sqrt x, Real.pi / 180⟩ Mat4.identity
        (radians ⟨Real.cos, Real.sin, fun x => 1 / Real.sqrt x, Real.pi / 180⟩ (90 * 2))
        ⟨0, 0, 1⟩ :=
  have h := mainLoop_rotation_speed
    ⟨Real.cos, Real.sin, fun x => 1 / Real.sqrt x, Real.pi / 180⟩ ⟨rfl, rfl, rfl, rfl⟩
    (initialState leftHeldEnv) [⟨1 / 2, []⟩, ⟨2, [.framebufferSize 800 600]⟩]
    (by simp) rfl rfl
    (by
      simp [EachFrame, loopBody, glfwPollEvents, render, State.call, initialState,
        leftHeldEnv, sampleEnv, windowWith, glfwWindowShouldClose])
  ⟨h.2.1, h.2.2.1 (by
      simp [EachFrame, loopBody, glfwPollEvents, render, State.call, initialState,
        leftHeldEnv, sampleEnv, windowWith, pressed, glfwGetKey, GLFW_KEY_LEFT,
        GLFW_KEY_RIGHT, GLFW_PRESS, GLFW_RELEASE])⟩

/-- C9: over exact real arithmetic, when LEFT and RIGHT are both pressed
`processInput` applies `rotate(_, radians(90 * dt), (0,0,1))` and then
`rotate(_, radians(-(90 * dt)), (0,0,1))`, and the matrix it leaves is `M`. -/
theorem processInput_both_keys_cancel (T : GlmScalar ℝ) (hT : ExactReal T) (window : Window)
    (dt : ℝ) (M : Mat4 ℝ) (hl : pressed window GLFW_KEY_LEFT)
    (hr : pressed window GLFW_KEY_RIGHT) :
    processInput T window dt M =
        rotate T (rotate T M (radians T (90 * dt)) ⟨0, 0, 1⟩) (radians T (-(90 * dt)))
          ⟨0, 0, 1⟩ ∧
      processInput T window dt M = M := by
  have hlaw := exactReal_lawful T hT
  have h1 := processInput_both T window dt M hl hr
  refine ⟨h1, ?_⟩
  rw [h1, rotate_z_rotate_z T hlaw]
  have h0 : radians T (90 * dt) + radians T (-(90 * dt)) = 0 := by
    simp only [radians]
    ring
  rw [h0, rotate_z_zero T hlaw]

/-- Witness for C9: both arrow keys down, `dt = 1/4`, on the identity matrix. -/
theorem processInput_both_keys_cancel_witness :
    processInput ⟨Real.cos, Real.sin, fun x => 1 / Real.sqrt x, Real.pi / 180⟩
      (windowWith [GLFW_KEY_LEFT, GLFW_KEY_RIGHT]) (1 / 4) Mat4.identity = Mat4.identity :=
  (processInput_both_keys_cancel ⟨Real.cos, Real.sin, fun x => 1 / Real.sqrt x, Real.pi / 180⟩
    ⟨rfl, rfl, rfl, rfl⟩ (windowWith [GLFW_KEY_LEFT, GLFW_KEY_RIGHT]) (1 / 4) Mat4.identity
    (by decide) (by decide)).2

end GlfwTemplate
